import Mathlib

/-!
Shallow embedding of the TravelAgent repository's intent-routing and
structured-fulfillment engine (src/main.py, src/travel_multiAgent_handoffs.py).

Capability providers (`search_flights`, `search_hotels`, `get_weather_forecast`)
are pure Python functions over their parameters (plus, for weather, the network);
they are embedded as Lean functions.  Python float prices are embedded as ℚ
(every literal in the source is exactly representable).  Python `str` becomes
`String`; optional parameters with default `None` become `Option`.
-/

namespace TravelAgent

/-- Python `needle in haystack` prefix check over character lists. -/
def hasPrefixCh : List Char → List Char → Bool
  | _, [] => true
  | [], _ :: _ => false
  | h :: t, a :: b => (h == a) && hasPrefixCh t b

/-- Python `needle in haystack`: contiguous-substring containment over character lists. -/
def hasSubCh : List Char → List Char → Bool
  | _, [] => true
  | [], _ :: _ => false
  | h :: t, a :: b => hasPrefixCh (h :: t) (a :: b) || hasSubCh t (a :: b)

/-- Python `needle in haystack` on strings. -/
def strContainsSub (haystack needle : String) : Bool :=
  hasSubCh haystack.toList needle.toList

/-- Python `str.title()` over character lists: upper-case the first letter of each
alphabetic run, lower-case the rest (`prevAlpha` says whether the previous
character was alphabetic). -/
def titleCh : List Char → Bool → List Char
  | [], _ => []
  | c :: rest, prevAlpha =>
    if c.isAlpha then
      (if prevAlpha then c.toLower else c.toUpper) :: titleCh rest true
    else
      c :: titleCh rest false

/-- Python `str.title()`. -/
def pyTitle (s : String) : String :=
  ⟨titleCh s.toList false⟩

/-- Python `str.lower()`: lower-case every character (character-by-character,
matching `String.toLower` on the ASCII city/destination keys the source uses). -/
def pyLower (s : String) : String :=
  ⟨s.toList.map Char.toLower⟩

/-- Python truthiness of an optional float (`if max_price:`): `None` and `0.0`
are falsy, every other value is truthy. -/
def pyTruthyOptFloat : Option ℚ → Bool
  | none => false
  | some p => decide (p ≠ 0)

/-- Raw flight record returned by the flight capability provider
(the dicts built in `search_flights`, src/main.py lines 86-101). -/
structure FlightRecord where
  airline : String
  departure_time : String
  arrival_time : String
  price : ℚ
  direct : Bool
deriving DecidableEq, Repr

/-- Raw hotel record returned by the hotel capability provider
(the dicts built in `search_hotels`, src/main.py lines 112-132). -/
structure HotelRecord where
  name : String
  location : String
  price_per_night : ℚ
  amenities : List String
deriving DecidableEq, Repr

/-- `search_flights(origin, destination, date)` from src/main.py lines 79-103:
branch on whether the lower-cased destination contains "sylhet" or "bangkok",
otherwise the generic fallback; `origin` and `date` are never read. -/
def search_flights (origin destination date : String) : List FlightRecord :=
  let _ := origin
  let _ := date
  let dest_lower := pyLower destination
  if strContainsSub dest_lower "sylhet" then
    [{ airline := "Biman Bangladesh", departure_time := "08:00", arrival_time := "08:45",
       price := 45, direct := true },
     { airline := "US-Bangla", departure_time := "14:30", arrival_time := "15:15",
       price := 50, direct := true }]
  else if strContainsSub dest_lower "bangkok" then
    [{ airline := "Thai Airways", departure_time := "11:00", arrival_time := "14:30",
       price := 350, direct := true },
     { airline := "Biman Bangladesh", departure_time := "10:00", arrival_time := "13:30",
       price := 280, direct := true }]
  else
    [{ airline := "Global Air", departure_time := "09:00", arrival_time := "12:00",
       price := 150, direct := false },
     { airline := "Eco Fly", departure_time := "18:00", arrival_time := "21:00",
       price := 120, direct := true }]

/-- The `hotels` candidate list computed by the if/elif chain of
`search_hotels` (src/main.py lines 110-132), before the price filter. -/
def hotelCandidates (city : String) : List HotelRecord :=
  let city_lower := pyLower city
  if strContainsSub city_lower "paris" then
    [{ name := "Hotel Eiffel Paris", location := "Central Paris",
       price_per_night := 220, amenities := ["WiFi", "Pool"] },
     { name := "Seine River View", location := "Riverside",
       price_per_night := 180, amenities := ["WiFi", "Parking"] }]
  else if strContainsSub city_lower "sylhet" then
    [{ name := "Grand Sylhet Hotel", location := "Airport Road",
       price_per_night := 90, amenities := ["Pool", "WiFi", "Buffet"] },
     { name := "Rose View Hotel", location := "Shahjalal Upashahar",
       price_per_night := 70, amenities := ["Gym", "Breakfast"] }]
  else if strContainsSub city_lower "dhaka" then
    [{ name := "InterContinental Dhaka", location := "Minto Road",
       price_per_night := 150, amenities := ["Luxury Pool", "Spa"] },
     { name := "Pan Pacific Sonargaon", location := "Karwan Bazar",
       price_per_night := 130, amenities := ["Gym", "Bar"] }]
  else
    [{ name := pyTitle city ++ " City Center Hotel", location := "Downtown",
       price_per_night := 100, amenities := ["WiFi", "Restaurant"] },
     { name := "The " ++ pyTitle city ++ " Inn", location := "Near Airport",
       price_per_night := 80, amenities := ["Parking", "Breakfast"] }]

/-- `search_hotels(city, check_in=None, check_out=None, max_price=None)` from
src/main.py lines 105-138: compute the candidate list for the city, then
`if max_price:` (Python truthiness: skipped for `None` and for `0.0`) filter to
records with `price_per_night <= max_price`.  `check_in`/`check_out` are never
read. -/
def search_hotels (city : String) (check_in check_out : Option String)
    (max_price : Option ℚ) : List HotelRecord :=
  let _ := check_in
  let _ := check_out
  let hotels := hotelCandidates city
  if pyTruthyOptFloat max_price then
    hotels.filter (fun h => h.price_per_night ≤ max_price.getD 0)
  else
    hotels

/-- The fixed `hotels = [...]` literal of the handoffs-script hotel provider
(src/travel_multiAgent_handoffs.py lines 115-128): the candidate list is the
same two-record Paris set regardless of `city`. -/
def handoffs_hotels_base : List HotelRecord :=
  [{ name := "Hotel Eiffel Paris", location := "Central Paris",
     price_per_night := 220, amenities := ["WiFi", "Pool", "Breakfast"] },
   { name := "Seine River View", location := "Riverside",
     price_per_night := 180, amenities := ["WiFi", "Parking"] }]

/-- The rest of `search_hotels(city, check_in, check_out, max_price=None)` from
src/travel_multiAgent_handoffs.py lines 106-133: the fixed candidate list, then
the same `if max_price:` truthiness-guarded price filter as in src/main.py. -/
def handoffs_search_hotels (city check_in check_out : String)
    (max_price : Option ℚ) : List HotelRecord :=
  let _ := city
  let _ := check_in
  let _ := check_out
  let hotels := handoffs_hotels_base
  if pyTruthyOptFloat max_price then
    hotels.filter (fun h => h.price_per_night ≤ max_price.getD 0)
  else
    hotels

/-- Outcome of the one HTTP GET the weather providers perform.  `raise e` is any
exception escaping `requests.get`/response parsing (connection error, bad JSON,
missing key), with `e` its Python stringification; `ok200 desc temp` is a 200
response whose body parses with `weather[0].description = desc` and
`main.temp = temp`; `notOk status msg` is a non-200 response whose body's
`message` field is `msg`. -/
inductive HttpOutcome where
  | raise (e : String)
  | ok200 (desc : String) (temp : ℚ)
  | notOk (status : Nat) (msg : Option String)
deriving DecidableEq, Repr

/-- Python truthiness of the optional `WEATHER_API_KEY` environment value:
unset (`None`) and the empty string are falsy. -/
def pyTruthyOptStr : Option String → Bool
  | none => false
  | some s => !(s == "")

/-- Render a rational the way the embedded format strings consume it (placeholder
for Python float formatting; the exact digits never matter to the claims). -/
def showPrice (q : ℚ) : String :=
  toString q.num ++ "/" ++ toString q.den

/-- `get_weather_forecast(lat, lon)` from src/main.py lines 60-77: falsy API key
returns the "Assume sunny" string; otherwise the whole request/parse is inside
`try`, so a 200 response formats the weather, a non-200 returns
"Weather unavailable.", and any exception is caught and returned as
"Weather error: ...".  Total: every path returns a string. -/
def get_weather_forecast (api_key : Option String) (lat lon : ℚ)
    (net : HttpOutcome) : String :=
  if !pyTruthyOptStr api_key then
    "Weather API key missing. Assume sunny."
  else
    match net with
    | .raise e => "Weather error: " ++ e
    | .ok200 desc temp =>
        "Weather at (" ++ showPrice lat ++ ", " ++ showPrice lon ++ "): " ++
          desc ++ ", " ++ showPrice temp ++ "Â°C."
    | .notOk _ _ => "Weather unavailable."

/-- `get_weather_forecast(lat, lon)` from src/travel_multiAgent_handoffs.py
lines 56-79: falsy API key returns the "not configured" string, but there is no
`try`/`except`, so an exception from `requests.get` (or body parsing) propagates
out of the provider — embedded as `Except.error`. -/
def handoffs_get_weather_forecast (api_key : Option String) (lat lon : ℚ)
    (net : HttpOutcome) : Except String String :=
  if !pyTruthyOptStr api_key then
    .ok "Weather API key not configured."
  else
    match net with
    | .raise e => .error e
    | .ok200 desc temp =>
        .ok ("Current weather at (" ++ showPrice lat ++ ", " ++ showPrice lon ++
          "): " ++ desc ++ ", temperature around " ++ showPrice temp ++ "°C.")
    | .notOk _ msg =>
        .ok ("Failed to fetch weather. Error: " ++
          (match msg with | some m => m | none => "None"))

/-- Duck-typed view of an arbitrary `result.final_output` object: which of the
four attributes probed by the envelope builder (src/main.py lines 188-190) are
present on it. -/
structure Shape where
  hasAirline : Bool
  hasName : Bool
  hasAmenities : Bool
  hasDestination : Bool
deriving DecidableEq, Repr

/-- The tag-inference chain of `query_agent` (src/main.py lines 186-190):
`res_type = "general"`, overridden by the first matching `hasattr` test. -/
def inferResponseType (s : Shape) : String :=
  if s.hasAirline then "flight"
  else if s.hasName && s.hasAmenities then "hotel"
  else if s.hasDestination then "travel_plan"
  else "general"

/-- The values `result.final_output` actually takes: one of the three pydantic
output types of the agents, or a plain string (generic text). -/
inductive FinalOutput where
  | flight (airline departure_time arrival_time : String) (price : ℚ)
      (direct_flight : Bool) (recommendation_reason : String)
  | hotel (name location : String) (price_per_night : ℚ)
      (amenities : List String) (recommendation_reason : String)
  | plan (destination : String) (duration_days : Int) (budget : ℚ)
      (activities : List String) (notes : String)
  | text (s : String)
deriving DecidableEq, Repr

/-- Which attributes `hasattr` finds on each concrete `final_output` class:
`FlightRecommendation` declares `airline`, `HotelRecommendation` declares
`name` and `amenities`, `TravelPlan` declares `destination`, and a plain
string declares none of the four. -/
def shapeOf : FinalOutput → Shape
  | .flight _ _ _ _ _ _ => ⟨true, false, false, false⟩
  | .hotel _ _ _ _ _ => ⟨false, true, true, false⟩
  | .plan _ _ _ _ _ => ⟨false, false, false, true⟩
  | .text _ => ⟨false, false, false, false⟩

/-- The `data` field of `TravelResponse`: the structured result on success, the
stringified exception on failure. -/
inductive EnvelopeData where
  | structured (f : FinalOutput)
  | errorText (s : String)
deriving DecidableEq, Repr

/-- The `TravelResponse` pydantic model (src/main.py lines 52-56). -/
structure TravelResponse where
  success : Bool
  response_type : String
  data : EnvelopeData
  message : Option String
deriving DecidableEq, Repr

/-- The `query_agent` endpoint body (src/main.py lines 179-205), with the agent
run abstracted as its outcome: `.ok final` when `Runner.run` produced
`final_output = final`, `.error e` when anything inside the `try` block raised
an exception whose stringification is `e`.  The success path infers
`response_type` from the shape of `final` and wraps it; the `except` path
builds the fixed error envelope. -/
def query_agent (outcome : Except String FinalOutput) : TravelResponse :=
  match outcome with
  | .ok final =>
    { success := true
      response_type := inferResponseType (shapeOf final)
      data := .structured final
      message := some "Success" }
  | .error e =>
    { success := false
      response_type := "error"
      data := .errorText e
      message := some "An error occurred" }

/-- The tag named by the concrete variant of a structured result (the
spec's StructuredResult tagged union: flight, hotel, travel_plan, general). -/
def variantTag : FinalOutput → String
  | .flight _ _ _ _ _ _ => "flight"
  | .hotel _ _ _ _ _ => "hotel"
  | .plan _ _ _ _ _ => "travel_plan"
  | .text _ => "general"

/-- The three agents of src/main.py lines 141-170 (the same static structure is
built in src/travel_multiAgent_handoffs.py lines 137-198). -/
inductive AgentId where
  | travelPlanner
  | flightSpecialist
  | hotelSpecialist
deriving DecidableEq, Repr

/-- The `handoffs=` argument of each `Agent(...)` construction: the Travel
Planner lists `[flight_agent, hotel_agent]`; the two specialist constructions
pass no `handoffs`, so theirs are empty. -/
def handoffTargets : AgentId → List AgentId
  | .travelPlanner => [.flightSpecialist, .hotelSpecialist]
  | .flightSpecialist => []
  | .hotelSpecialist => []

/-- Modelled from the spec (4.5): the priority list
flight-shaped → hotel-shaped → plan-shaped, with "general" as the default tag.
A shape is flight-shaped when `airline` is present, hotel-shaped when both
`name` and `amenities` are present, plan-shaped when `destination` is present. -/
def tagPriority : List ((Shape → Bool) × String) :=
  [(fun s => s.hasAirline, "flight"),
   (fun s => s.hasName && s.hasAmenities, "hotel"),
   (fun s => s.hasDestination, "travel_plan")]

/-- Modelled from the spec (4.5): the tag of the first matching shape in the
priority order, "general" when none matches. -/
def firstMatchingTag (s : Shape) : String :=
  match tagPriority.find? (fun pt => pt.1 s) with
  | some pt => pt.2
  | none => "general"

/-! ## Theorems -/

/-- C1 counterexample: the claim quantifies over every supplied `max_price = P`,
but Python `if max_price:` treats `0.0` as falsy, so `search_hotels("paris",
max_price=0.0)` skips the filter and returns a record priced 220 > 0. -/
theorem C1_counterexample :
    ¬ ∀ h ∈ search_hotels "paris" none none (some 0),
        h.price_per_night ≤ (0 : ℚ) := by
  intro hall
  have h220 := hall
    { name := "Hotel Eiffel Paris", location := "Central Paris",
      price_per_night := 220, amenities := ["WiFi", "Pool"] } (by decide)
  exact absurd h220 (by decide)

/-- C1 (amended): for every hotel search call with a nonzero `max_price = P`
supplied, every returned record has `price_per_night ≤ P`; with no `max_price`
supplied, the result is the full unfiltered candidate set for that city.  Both
the main service provider and the handoffs-script provider obey this. -/
theorem C1_filter_law :
    (∀ (city : String) (ci co : Option String) (P : ℚ), P ≠ 0 →
      ∀ h ∈ search_hotels city ci co (some P), h.price_per_night ≤ P) ∧
    (∀ (city : String) (ci co : Option String),
      search_hotels city ci co none = hotelCandidates city) ∧
    (∀ (city check_in check_out : String) (P : ℚ), P ≠ 0 →
      ∀ h ∈ handoffs_search_hotels city check_in check_out (some P),
        h.price_per_night ≤ P) ∧
    (∀ (city check_in check_out : String),
      handoffs_search_hotels city check_in check_out none = handoffs_hotels_base) := by
  refine ⟨?_, ?_, ?_, ?_⟩
  · intro city ci co P hP h hmem
    simp [search_hotels, pyTruthyOptFloat, hP, List.mem_filter] at hmem
    exact hmem.2
  · intro city ci co
    rfl
  · intro city check_in check_out P hP h hmem
    simp [handoffs_search_hotels, pyTruthyOptFloat, hP, List.mem_filter] at hmem
    exact hmem.2
  · intro city check_in check_out
    rfl

/-- C1 witness: at city "paris" with `max_price = 200`, the Seine River View
record (price 180) is returned and the theorem bounds its price by 200. -/
theorem C1_filter_law_witness :
    (200 : ℚ) ≠ 0 ∧
    ({ name := "Seine River View", location := "Riverside",
       price_per_night := 180, amenities := ["WiFi", "Parking"] } : HotelRecord)
      ∈ search_hotels "paris" none none (some 200) ∧
    ({ name := "Seine River View", location := "Riverside",
       price_per_night := 180, amenities := ["WiFi", "Parking"] } : HotelRecord).price_per_night
      ≤ (200 : ℚ) :=
  ⟨by decide, by decide,
    C1_filter_law.1 "paris" none none 200 (by decide) _ (by decide)⟩

/-- C2: the envelope builder's tag is a pure function of which fields are
present: for every shape it equals the tag of the first matching entry of the
spec's priority list (flight-shaped, then hotel-shaped, then plan-shaped, then
generic); in particular an object carrying both flight-shaped and plan-shaped
fields is tagged "flight".  Determinism is immediate: `inferResponseType` is a
function of the shape alone. -/
theorem C2_tag_priority :
    (∀ s : Shape, inferResponseType s = firstMatchingTag s) ∧
    (∀ s : Shape, s.hasAirline = true → s.hasDestination = true →
      inferResponseType s = "flight") := by
  constructor
  · intro s
    obtain ⟨a, n, m, d⟩ := s
    cases a <;> cases n <;> cases m <;> cases d <;> rfl
  · intro s ha _
    obtain ⟨a, n, m, d⟩ := s
    simp only at ha
    simp [inferResponseType, ha]

/-- C2 witness: the malformed shape with both `airline` and `destination`
present resolves to "flight". -/
theorem C2_tag_priority_witness :
    (Shape.mk true false false true).hasAirline = true ∧
    (Shape.mk true false false true).hasDestination = true ∧
    inferResponseType ⟨true, false, false, true⟩ = "flight" :=
  ⟨rfl, rfl, C2_tag_priority.2 ⟨true, false, false, true⟩ rfl rfl⟩

/-- C3: whenever anything inside the endpoint's `try` block raises, the
endpoint returns the envelope `success = false`, `response_type = "error"`,
`data` = the stringified exception, `message = "An error occurred"`, instead of
propagating the exception (the `except` branch of src/main.py lines 198-205). -/
theorem C3_error_boundary :
    ∀ e : String,
      query_agent (.error e) =
        { success := false, response_type := "error", data := .errorText e,
          message := some "An error occurred" } :=
  fun _ => rfl

/-- C4 counterexample: the claim asserts a non-empty result for every
combination of location and optional filter parameters, but the hotel provider
returns the empty list for Paris with `max_price = 50` (both candidates cost
more than 50). -/
theorem C4_counterexample :
    search_hotels "paris" none none (some 50) = [] := by decide

/-- C4 (amended): the flight provider returns a two-record (hence non-empty)
candidate set for every input including unknown destinations, and the hotel
provider's candidate set is two records for every city including unknown
cities; the hotel result is that full non-empty set whenever the supplied
`max_price` is absent (or the falsy `0.0`).  A truthy `max_price` can filter
the set down to empty, so the non-emptiness guarantee holds only pre-filter. -/
theorem C4_fallback_nonempty :
    (∀ origin destination date,
      (search_flights origin destination date).length = 2) ∧
    (∀ city, (hotelCandidates city).length = 2) ∧
    (∀ (city : String) (ci co : Option String),
      search_hotels city ci co none = hotelCandidates city) ∧
    (∀ (city : String) (ci co : Option String),
      search_hotels city ci co (some 0) = hotelCandidates city) := by
  refine ⟨?_, ?_, ?_, ?_⟩
  · intro origin destination date
    unfold search_flights
    dsimp only
    split
    · rfl
    · split
      · rfl
      · rfl
  · intro city
    unfold hotelCandidates
    dsimp only
    split
    · rfl
    · split
      · rfl
      · split
        · rfl
        · rfl
  · intro city ci co
    rfl
  · intro city ci co
    rfl

/-- C5: the handoff graph is the fixed two-level tree: the Travel Planner's
`handoffs` list is exactly `[flight_agent, hotel_agent]`, the specialists have
no handoff targets, and every handoff target of any agent itself has no
targets, so no delegation chain is longer than one step and no cycle exists. -/
theorem C5_handoff_tree :
    handoffTargets .travelPlanner = [.flightSpecialist, .hotelSpecialist] ∧
    handoffTargets .flightSpecialist = [] ∧
    handoffTargets .hotelSpecialist = [] ∧
    ∀ a b : AgentId, b ∈ handoffTargets a → handoffTargets b = [] := by
  refine ⟨rfl, rfl, rfl, ?_⟩
  intro a b hb
  cases a <;> cases b <;> simp [handoffTargets] at hb ⊢

/-- C5 witness: the Flight Specialist is a handoff target of the Travel
Planner and has no further targets. -/
theorem C5_handoff_tree_witness :
    AgentId.flightSpecialist ∈ handoffTargets .travelPlanner ∧
    handoffTargets .flightSpecialist = [] :=
  ⟨by simp [handoffTargets],
    C5_handoff_tree.2.2.2 .travelPlanner .flightSpecialist (by simp [handoffTargets])⟩

/-- C6 counterexample: the weather provider in
src/travel_multiAgent_handoffs.py has no `try`/`except`, so with a credential
configured, a network failure raising from `requests.get` propagates out of the
provider instead of producing a string. -/
theorem C6_counterexample :
    handoffs_get_weather_forecast (some "key") 0 0
      (.raise "ConnectionError: failed to establish a new connection") =
      .error "ConnectionError: failed to establish a new connection" := rfl

/-- C6 (amended): a missing credential produces a descriptive string in both
weather providers, and in the main service's provider (src/main.py, whose
request/parse sits inside `try`) a network failure also produces a descriptive
string and never escapes; only the handoffs-script variant propagates network
exceptions. -/
theorem C6_weather_degrades :
    (∀ (lat lon : ℚ) (net : HttpOutcome),
      get_weather_forecast none lat lon net =
        "Weather API key missing. Assume sunny.") ∧
    (∀ (k : String) (lat lon : ℚ) (e : String), pyTruthyOptStr (some k) = true →
      get_weather_forecast (some k) lat lon (.raise e) = "Weather error: " ++ e) ∧
    (∀ (k : String) (lat lon : ℚ) (st : Nat) (m : Option String),
      pyTruthyOptStr (some k) = true →
      get_weather_forecast (some k) lat lon (.notOk st m) = "Weather unavailable.") ∧
    (∀ (lat lon : ℚ) (net : HttpOutcome),
      handoffs_get_weather_forecast none lat lon net =
        .ok "Weather API key not configured.") := by
  refine ⟨fun _ _ _ => rfl, ?_, ?_, fun _ _ _ => rfl⟩
  · intro k lat lon e hk
    simp [get_weather_forecast, hk]
  · intro k lat lon st m hk
    simp [get_weather_forecast, hk]

/-- C6 witness: with the key "key" configured, a concrete raised network error
comes back as a "Weather error: ..." string from the main provider. -/
theorem C6_weather_degrades_witness :
    pyTruthyOptStr (some "key") = true ∧
    get_weather_forecast (some "key") 0 0 (.raise "boom") = "Weather error: boom" := by
  refine ⟨rfl, ?_⟩
  rw [C6_weather_degrades.2.1 "key" 0 0 "boom" rfl]
  decide

/-- C7: every envelope the endpoint returns satisfies the invariant: on the
success path the tag equals the tag named by the concrete variant of the
structured result carried in `data` ("general" for a plain string), and on the
failure path the tag is "error" and `data` is the stringified failure, never a
structured object. -/
theorem C7_envelope_invariant :
    (∀ f : FinalOutput,
      (query_agent (.ok f)).success = true ∧
      (query_agent (.ok f)).response_type = variantTag f ∧
      (query_agent (.ok f)).data = .structured f) ∧
    (∀ e : String,
      (query_agent (.error e)).success = false ∧
      (query_agent (.error e)).response_type = "error" ∧
      (query_agent (.error e)).data = .errorText e) := by
  constructor
  · intro f
    refine ⟨rfl, ?_, rfl⟩
    cases f <;> rfl
  · intro e
    exact ⟨rfl, rfl, rfl⟩

/-- C8: the max-price filter is a pure post-filter: the returned list is a
subsequence (same order, records unchanged) of the candidate set, and every
returned record is an element of the candidate set.  In this embedding the
providers are pure functions, so the unfiltered candidate set itself
(`hotelCandidates city` / `handoffs_hotels_base`) is untouched by any call. -/
theorem C8_pure_post_filter :
    (∀ (city : String) (ci co : Option String) (mp : Option ℚ),
      List.Sublist (search_hotels city ci co mp) (hotelCandidates city)) ∧
    (∀ (city : String) (ci co : Option String) (mp : Option ℚ)
        (h : HotelRecord), h ∈ search_hotels city ci co mp →
      h ∈ hotelCandidates city) ∧
    (∀ (city check_in check_out : String) (mp : Option ℚ),
      List.Sublist (handoffs_search_hotels city check_in check_out mp)
        handoffs_hotels_base) := by
  refine ⟨?_, ?_, ?_⟩
  · intro city ci co mp
    unfold search_hotels
    dsimp only
    split
    · exact List.filter_sublist _
    · exact List.Sublist.refl _
  · intro city ci co mp h hmem
    unfold search_hotels at hmem
    dsimp only at hmem
    split at hmem
    · exact (List.filter_sublist _).subset hmem
    · exact hmem
  · intro city check_in check_out mp
    unfold handoffs_search_hotels
    dsimp only
    split
    · exact List.filter_sublist _
    · exact List.Sublist.refl _

/-- C8 witness: the record returned for Paris under `max_price = 200` is an
element of the unfiltered Paris candidate set. -/
theorem C8_pure_post_filter_witness :
    ({ name := "Seine River View", location := "Riverside",
       price_per_night := 180, amenities := ["WiFi", "Parking"] } : HotelRecord)
      ∈ search_hotels "paris" none none (some 200) ∧
    ({ name := "Seine River View", location := "Riverside",
       price_per_night := 180, amenities := ["WiFi", "Parking"] } : HotelRecord)
      ∈ hotelCandidates "paris" :=
  ⟨by decide, C8_pure_post_filter.2.1 "paris" none none (some 200) _ (by decide)⟩

/-- C9: `max_price = 0.0` is falsy under Python `if max_price:`, so the filter
is skipped: the result is the full candidate set for the city, identical to
the no-`max_price` call, not the empty set of hotels priced at most 0. -/
theorem C9_zero_price_unfiltered :
    ∀ (city : String) (ci co : Option String),
      search_hotels city ci co (some 0) = hotelCandidates city ∧
      search_hotels city ci co (some 0) = search_hotels city ci co none :=
  fun _ _ _ => ⟨rfl, rfl⟩

/-- C10: the flight result depends only on `destination` (`origin` and `date`
are never read), and the hotel result depends only on `city` and `max_price`
(`check_in` and `check_out` are never read). -/
theorem C10_unused_params :
    (∀ (destination o₁ d₁ o₂ d₂ : String),
      search_flights o₁ destination d₁ = search_flights o₂ destination d₂) ∧
    (∀ (city : String) (mp : Option ℚ) (ci₁ co₁ ci₂ co₂ : Option String),
      search_hotels city ci₁ co₁ mp = search_hotels city ci₂ co₂ mp) :=
  ⟨fun _ _ _ _ _ => rfl, fun _ _ _ _ _ _ => rfl⟩

end TravelAgent
